import Mathlib

/-!
Shallow embedding of the inventory-management backend
(`src/backend/app`): the data model (`models/user.py`, `models/product.py`),
the repository layer (`repositories/base.py`, `repositories/user.py`,
`repositories/product.py`) and the API endpoints
(`api/endpoints/auth.py`, `api/endpoints/users.py`,
`api/endpoints/products.py`, `api/deps.py`).

Database tables are modelled as Lean lists of rows; a SQLAlchemy session
commit of a fetched row is modelled as replacing the row with the matching
primary key.  Password hashing and verification are opaque cryptographic
services, so they are passed as function parameters.  Store-managed
timestamps (`created_at` / `updated_at`) are not part of the repository
logic and are omitted from the row types.
-/

/-- Error taxonomy of the API surface: the HTTP status classes raised by
the endpoints (400, 401, 403, 404). -/
inductive ApiError
  | badRequest
  | unauthorized
  | forbidden
  | notFound
deriving DecidableEq

deriving instance DecidableEq for Except

/-- Account row, from `models/user.py` (class `User`): email, username,
hashed password, optional full name, active and superuser flags, plus the
integer primary key from `models/base.py`. -/
structure User where
  id : Int
  email : String
  username : String
  hashed_password : String
  full_name : Option String := none
  is_active : Bool := true
  is_superuser : Bool := false
deriving DecidableEq

/-- Item row, from `models/product.py` (class `Product`). -/
structure Product where
  id : Int
  name : String
  description : Option String := none
  sku : String
  price : Rat
  quantity : Int := 0
  image_url : Option String := none
  category : Option String := none
  min_stock : Int := 0
  user_id : Int
deriving DecidableEq

/-- Derived low-stock flag, from `models/product.py`
(`Product.is_low_stock`): `self.quantity <= self.min_stock`. -/
def Product.is_low_stock (p : Product) : Bool :=
  p.quantity ≤ p.min_stock

/-- Derived total value, from `models/product.py` (`Product.total_value`):
`self.price * self.quantity`. -/
def Product.total_value (p : Product) : Rat :=
  p.price * (p.quantity : Rat)

abbrev ProductTable := List Product

abbrev UserTable := List User

/-- `BaseRepository.get` (`repositories/base.py`): first row whose primary
key equals `id`, or the not-found sentinel. -/
def BaseRepository.get (getId : α → Int) (db : List α) (id : Int) : Option α :=
  db.find? (fun row => getId row == id)

/-- `BaseRepository.count` (`repositories/base.py`): total row count of the
table, with no filter. -/
def BaseRepository.count (db : List α) : Nat :=
  db.length

/-- A SQLAlchemy `db.add(obj); db.commit()` on a row previously fetched
from the session: the table row with `obj`'s primary key becomes `obj`. -/
def saveRow (getId : α → Int) (db : List α) (obj : α) : List α :=
  db.map (fun row => if getId row == getId obj then obj else row)

/-- `BaseRepository.remove` (`repositories/base.py`): fetch by primary key;
if present delete that row and return it, else return the not-found
sentinel and leave the table unchanged. -/
def BaseRepository.remove (getId : α → Int) (db : List α) (id : Int) :
    Option α × List α :=
  match BaseRepository.get getId db id with
  | none => (none, db)
  | some obj => (some obj, db.eraseP (fun row => getId row == id))

/-- Python's `str.lower()`, character by character (the strings compared
in this codebase are ASCII). -/
def lowerString (s : String) : String :=
  ⟨s.data.map Char.toLower⟩

/-- `BaseRepository.get_multi` (`repositories/base.py`): optional ordering
then offset/limit pagination.  An orderable column is modelled by its key
function into `Int`; `fieldKey` plays the role of
`getattr(self.model, order_by, None)`: it yields `none` exactly when the
entity has no such field, in which case ordering is silently skipped.
`order_direction.lower() == "desc"` selects descending order, anything
else ascending. -/
def BaseRepository.get_multi (db : List α) (skip limit : Nat)
    (order_by : Option String) (order_direction : String)
    (fieldKey : String → Option (α → Int)) : List α :=
  let query :=
    match order_by with
    | none => db
    | some f =>
      match fieldKey f with
      | none => db
      | some key =>
        if lowerString order_direction == "desc" then
          db.mergeSort (fun a b => key b ≤ key a)
        else
          db.mergeSort (fun a b => key a ≤ key b)
  (query.drop skip).take limit

/-- The `Int`-keyed orderable columns of the Item table, for instantiating
`BaseRepository.get_multi` at `Product`.  String- and float-valued columns
are omitted from this instance; the general theorems quantify over the
key assignment. -/
def productFieldKey : String → Option (Product → Int)
  | "id" => some Product.id
  | "quantity" => some Product.quantity
  | "min_stock" => some Product.min_stock
  | "user_id" => some Product.user_id
  | _ => none

/-- Python truthiness of an optional string (`if search:`): `None` and the
empty string are falsy. -/
def pyTruthy (o : Option String) : Bool :=
  o.getD "" != ""

/-- SQL `column ILIKE '%query%'`: case-insensitive substring match. -/
def ilike (field : String) (query : String) : Bool :=
  decide ((lowerString query).toList <:+: (lowerString field).toList)

/-- `ProductRepository.get_by_sku` (`repositories/product.py`). -/
def ProductRepository.get_by_sku (db : ProductTable) (sku : String) :
    Option Product :=
  db.find? (fun p => p.sku == sku)

/-- `ProductRepository.get` is `BaseRepository.get` at the Item table. -/
def ProductRepository.get (db : ProductTable) (id : Int) : Option Product :=
  BaseRepository.get Product.id db id

/-- `ProductRepository.search` (`repositories/product.py`): rows matching
the case-insensitive substring filter on name OR description OR SKU
(a NULL description matches nothing), paginated.  In SQL the offset/limit
applies to the filtered row set. -/
def ProductRepository.search (db : ProductTable) (query : String)
    (skip limit : Nat) : ProductTable :=
  let filtered := db.filter (fun p =>
    ilike p.name query
      || (match p.description with
          | some d => ilike d query
          | none => false)
      || ilike p.sku query)
  (filtered.drop skip).take limit

/-- `ProductRepository.get_by_category` (`repositories/product.py`): rows
whose category equals the given one (a NULL category never matches),
paginated. -/
def ProductRepository.get_by_category (db : ProductTable) (category : String)
    (skip limit : Nat) : ProductTable :=
  ((db.filter (fun p => p.category == some category)).drop skip).take limit

/-- `ProductRepository.get_low_stock` (`repositories/product.py`): rows
with `quantity <= min_stock`, paginated. -/
def ProductRepository.get_low_stock (db : ProductTable) (skip limit : Nat) :
    ProductTable :=
  ((db.filter (fun p => p.quantity ≤ p.min_stock)).drop skip).take limit

/-- `ProductRepository.update_stock` (`repositories/product.py`): fetch the
row; if present add `quantity_change` to its quantity, clamp below at
zero, persist and return the updated row; else return the not-found
sentinel with the table unchanged. -/
def ProductRepository.update_stock (db : ProductTable) (product_id : Int)
    (quantity_change : Int) : Option Product × ProductTable :=
  match ProductRepository.get db product_id with
  | none => (none, db)
  | some product =>
    let new_quantity := product.quantity + quantity_change
    let clamped := if new_quantity < 0 then 0 else new_quantity
    let updated := { product with quantity := clamped }
    (some updated, saveRow Product.id db updated)

/-- Update payload for an Item, from `schemas/product.py`
(`ProductUpdate`).  Pydantic's `model_dump(exclude_unset=True)`
distinguishes an absent field from one explicitly present, so each payload
field is wrapped in an outer `Option` meaning "present in the payload";
for the nullable columns the inner value is itself optional. -/
structure ProductUpdate where
  name : Option String := none
  description : Option (Option String) := none
  sku : Option String := none
  price : Option Rat := none
  quantity : Option Int := none
  image_url : Option (Option String) := none
  category : Option (Option String) := none
  min_stock : Option Int := none
deriving DecidableEq

/-- The field loop of `BaseRepository.update` (`repositories/base.py`):
`for field, value in update_data.items(): setattr(db_obj, field, value)`
over the fields present in the payload; absent fields are not touched. -/
def applyProductUpdate (db_obj : Product) (u : ProductUpdate) : Product :=
  let p := db_obj
  let p := match u.name with | some v => { p with name := v } | none => p
  let p := match u.description with | some v => { p with description := v } | none => p
  let p := match u.sku with | some v => { p with sku := v } | none => p
  let p := match u.price with | some v => { p with price := v } | none => p
  let p := match u.quantity with | some v => { p with quantity := v } | none => p
  let p := match u.image_url with | some v => { p with image_url := v } | none => p
  let p := match u.category with | some v => { p with category := v } | none => p
  let p := match u.min_stock with | some v => { p with min_stock := v } | none => p
  p

/-- `BaseRepository.update` (`repositories/base.py`) at the Item table:
apply the present payload fields to the fetched row, persist, and return
the updated entity. -/
def BaseRepository.updateProduct (db : ProductTable) (db_obj : Product)
    (obj_in : ProductUpdate) : Product × ProductTable :=
  let updated := applyProductUpdate db_obj obj_in
  (updated, saveRow Product.id db updated)

/-- Creation payload for an Item, from `schemas/product.py`
(`ProductCreate`). -/
structure ProductCreate where
  name : String
  description : Option String := none
  sku : String
  price : Rat
  quantity : Int
  image_url : Option String := none
  category : Option String := none
  min_stock : Int := 0
deriving DecidableEq

/-- Registration payload, from `schemas/user.py` (`UserCreate`): the
active flag defaults to `true` and the superuser flag to `false` when
absent from the payload. -/
structure UserCreate where
  email : String
  username : String
  full_name : Option String := none
  is_active : Bool := true
  is_superuser : Bool := false
  password : String
deriving DecidableEq

/-- `UserRepository.get_by_email` (`repositories/user.py`). -/
def UserRepository.get_by_email (db : UserTable) (email : String) :
    Option User :=
  db.find? (fun u => u.email == email)

/-- `UserRepository.get_by_username` (`repositories/user.py`). -/
def UserRepository.get_by_username (db : UserTable) (username : String) :
    Option User :=
  db.find? (fun u => u.username == username)

/-- `UserRepository.get` is `BaseRepository.get` at the Account table. -/
def UserRepository.get (db : UserTable) (id : Int) : Option User :=
  BaseRepository.get User.id db id

/-- `UserRepository.create` (`repositories/user.py`): build the Account
row field by field from the payload — the password hashed by the opaque
Credential Service `hash`, every other field (including the active and
superuser flags) copied verbatim — and append it to the table.  The store
assigns the primary key, modelled by the `nextId` parameter. -/
def UserRepository.create (hash : String → String) (db : UserTable)
    (nextId : Int) (obj_in : UserCreate) : User × UserTable :=
  let db_obj : User :=
    { id := nextId
      email := obj_in.email
      username := obj_in.username
      hashed_password := hash obj_in.password
      full_name := obj_in.full_name
      is_active := obj_in.is_active
      is_superuser := obj_in.is_superuser }
  (db_obj, db ++ [db_obj])

/-- `UserRepository.authenticate` (`repositories/user.py`): look up by
username, fall back to email; the not-authenticated sentinel when no
account is found or when the opaque `verify` rejects the password against
the stored hash; otherwise the account.  No active-flag check. -/
def UserRepository.authenticate (verify : String → String → Bool)
    (db : UserTable) (username password : String) : Option User :=
  let user :=
    match UserRepository.get_by_username db username with
    | some u => some u
    | none => UserRepository.get_by_email db username
  match user with
  | none => none
  | some u => if verify password u.hashed_password then some u else none

/-- Pagination parameters, from `api/deps.py` (`PaginationParams`): page
clamped to at least 1, size clamped to `[1, 100]`,
`skip = (page - 1) * size`, `limit = size`. -/
structure PaginationParams where
  page : Nat
  size : Nat
  skip : Nat
  limit : Nat
  order_by : Option String := none
  order_direction : String := "asc"
deriving DecidableEq

/-- The `PaginationParams.__init__` of `api/deps.py`, from the raw integer
query parameters. -/
def PaginationParams.make (page size : Int) (order_by : Option String)
    (order_direction : String) : PaginationParams :=
  let p := (max 1 page).toNat
  let s := (min 100 (max 1 size)).toNat
  { page := p
    size := s
    skip := (p - 1) * s
    limit := s
    order_by := order_by
    order_direction := order_direction }

/-- Response shape of `GET /products/`, from `schemas/product.py`
(`ProductList`). -/
structure ProductList where
  items : List Product
  total : Nat
  page : Nat
  size : Nat
  pages : Nat
deriving DecidableEq

/-- `read_products` (`api/endpoints/products.py`, `GET /products/`): four
mutually exclusive filter modes chosen in precedence order
search / category / low-stock / default, then pagination metadata with
`total = count()` — the whole-table count, whatever the filter — and
`pages = (total + size - 1) // size`. -/
def read_products (db : ProductTable) (pg : PaginationParams)
    (search : Option String) (category : Option String) (low_stock : Bool) :
    ProductList :=
  let products :=
    if pyTruthy search then
      ProductRepository.search db (search.getD "") pg.skip pg.limit
    else if pyTruthy category then
      ProductRepository.get_by_category db (category.getD "") pg.skip pg.limit
    else if low_stock then
      ProductRepository.get_low_stock db pg.skip pg.limit
    else
      BaseRepository.get_multi db pg.skip pg.limit pg.order_by
        pg.order_direction productFieldKey
  let total := BaseRepository.count db
  let pages := (total + pg.size - 1) / pg.size
  { items := products
    total := total
    page := pg.page
    size := pg.size
    pages := pages }

/-- `create_product` (`api/endpoints/products.py`, `POST /products/`):
active-caller gate from `deps.get_current_active_user`, duplicate-SKU
pre-check, then create with the caller as owner. -/
def create_product (db : ProductTable) (current : User) (nextId : Int)
    (product_in : ProductCreate) : Except ApiError Product × ProductTable :=
  if !current.is_active then (.error .badRequest, db)
  else if (ProductRepository.get_by_sku db product_in.sku).isSome then
    (.error .badRequest, db)
  else
    let product : Product :=
      { id := nextId
        name := product_in.name
        description := product_in.description
        sku := product_in.sku
        price := product_in.price
        quantity := product_in.quantity
        image_url := product_in.image_url
        category := product_in.category
        min_stock := product_in.min_stock
        user_id := current.id }
    (.ok product, db ++ [product])

/-- `update_product` (`api/endpoints/products.py`, `PUT /products/{id}`):
active-caller gate, 404 if absent, 403 unless the caller owns the row or
is superuser, 400 if a changed SKU collides, else merge-patch update. -/
def update_product (db : ProductTable) (current : User) (product_id : Int)
    (product_in : ProductUpdate) : Except ApiError Product × ProductTable :=
  if !current.is_active then (.error .badRequest, db)
  else
    match ProductRepository.get db product_id with
    | none => (.error .notFound, db)
    | some product =>
      if product.user_id != current.id && !current.is_superuser then
        (.error .forbidden, db)
      else
        let skuConflict :=
          match product_in.sku with
          | none => false
          | some s =>
            s != "" && s != product.sku
              && (ProductRepository.get_by_sku db s).isSome
        if skuConflict then (.error .badRequest, db)
        else
          let r := BaseRepository.updateProduct db product product_in
          (.ok r.1, r.2)

/-- `delete_product` (`api/endpoints/products.py`,
`DELETE /products/{id}`): active-caller gate, 404 if absent, 403 unless
owner or superuser, else remove. -/
def delete_product (db : ProductTable) (current : User) (product_id : Int) :
    Except ApiError Unit × ProductTable :=
  if !current.is_active then (.error .badRequest, db)
  else
    match ProductRepository.get db product_id with
    | none => (.error .notFound, db)
    | some product =>
      if product.user_id != current.id && !current.is_superuser then
        (.error .forbidden, db)
      else
        (.ok (), (BaseRepository.remove Product.id db product_id).2)

/-- `update_product_stock` (`api/endpoints/products.py`,
`PATCH /products/{id}/stock`): active-caller gate, then
`ProductRepository.update_stock`; 404 when the sentinel comes back.  The
endpoint performs no ownership or privilege check. -/
def update_product_stock (db : ProductTable) (current : User)
    (product_id : Int) (quantity_change : Int) :
    Except ApiError Product × ProductTable :=
  if !current.is_active then (.error .badRequest, db)
  else
    match ProductRepository.update_stock db product_id quantity_change with
    | (none, db2) => (.error .notFound, db2)
    | (some p, db2) => (.ok p, db2)

/-- `register` (`api/endpoints/auth.py`, `POST /auth/register`):
unauthenticated; 400 if the username or the email is already taken, else
create the account from the payload. -/
def register (hash : String → String) (db : UserTable) (nextId : Int)
    (user_in : UserCreate) : Except ApiError User × UserTable :=
  if (UserRepository.get_by_username db user_in.username).isSome then
    (.error .badRequest, db)
  else if (UserRepository.get_by_email db user_in.email).isSome then
    (.error .badRequest, db)
  else
    let r := UserRepository.create hash db nextId user_in
    (.ok r.1, r.2)

/-- `delete_user` (`api/endpoints/users.py`, `DELETE /users/{id}`): the
`get_current_active_superuser` dependency (active gate then superuser
gate), then 400 on self-deletion, 404 if absent, else remove. -/
def delete_user (db : UserTable) (current : User) (user_id : Int) :
    Except ApiError Unit × UserTable :=
  if !current.is_active then (.error .badRequest, db)
  else if !current.is_superuser then (.error .forbidden, db)
  else if user_id == current.id then (.error .badRequest, db)
  else
    match UserRepository.get db user_id with
    | none => (.error .notFound, db)
    | some _ => (.ok (), (BaseRepository.remove User.id db user_id).2)

/-- Update payload for an Account, from `schemas/user.py` (`UserUpdate`):
optional email, username, full name, password and active flag (no
superuser field).  As with `ProductUpdate`, the outer `Option` records
presence in the payload (`model_dump(exclude_unset=True)`); the nullable
full-name column has an inner optional value. -/
structure UserUpdate where
  email : Option String := none
  username : Option String := none
  full_name : Option (Option String) := none
  password : Option String := none
  is_active : Option Bool := none
deriving DecidableEq

/-- `UserRepository.update` (`repositories/user.py`) field application: a
present password is hashed by the opaque Credential Service and stored as
the hashed password; every other present field overwrites the entity
field; absent fields are untouched (the `BaseRepository.update` loop). -/
def applyUserUpdate (hash : String → String) (db_obj : User)
    (u : UserUpdate) : User :=
  let p := db_obj
  let p := match u.email with | some v => { p with email := v } | none => p
  let p := match u.username with
    | some v => { p with username := v }
    | none => p
  let p := match u.full_name with
    | some v => { p with full_name := v }
    | none => p
  let p := match u.password with
    | some v => { p with hashed_password := hash v }
    | none => p
  let p := match u.is_active with
    | some v => { p with is_active := v }
    | none => p
  p

/-- `UserRepository.update` (`repositories/user.py`) at the Account
table: apply the present payload fields to the fetched row, persist, and
return the updated entity. -/
def UserRepository.update (hash : String → String) (db : UserTable)
    (db_obj : User) (obj_in : UserUpdate) : User × UserTable :=
  let updated := applyUserUpdate hash db_obj obj_in
  (updated, saveRow User.id db updated)

/-- `update_user_me` (`api/endpoints/users.py`, `PUT /users/me`):
active-caller gate, 400 if a changed email or username collides with an
existing account, else merge-patch the caller's own profile. -/
def update_user_me (hash : String → String) (db : UserTable)
    (current : User) (user_in : UserUpdate) :
    Except ApiError User × UserTable :=
  if !current.is_active then (.error .badRequest, db)
  else
    let emailConflict :=
      match user_in.email with
      | none => false
      | some s =>
        s != "" && s != current.email
          && (UserRepository.get_by_email db s).isSome
    if emailConflict then (.error .badRequest, db)
    else
      let usernameConflict :=
        match user_in.username with
        | none => false
        | some s =>
          s != "" && s != current.username
            && (UserRepository.get_by_username db s).isSome
      if usernameConflict then (.error .badRequest, db)
      else
        let r := UserRepository.update hash db current user_in
        (.ok r.1, r.2)

/-! ### Demo rows used to evaluate the model at concrete inputs -/

/-- A regular active account. -/
def alice : User :=
  { id := 1, email := "alice@example.com", username := "alice",
    hashed_password := "hpw1" }

/-- A second regular active account, neither owner of the demo items below
nor superuser. -/
def bob : User :=
  { id := 2, email := "bob@example.com", username := "bob",
    hashed_password := "hpw2" }

/-- An active superuser account. -/
def adminUser : User :=
  { id := 3, email := "admin@example.com", username := "admin",
    hashed_password := "hpw3", is_superuser := true }

/-- An inactive account. -/
def carol : User :=
  { id := 4, email := "carol@example.com", username := "carol",
    hashed_password := "pwc", is_active := false }

/-- A demo Account table. -/
def demoUsers : UserTable := [alice, bob, adminUser]

/-- An item owned by `alice`, not low on stock. -/
def widget : Product :=
  { id := 10, name := "Widget", sku := "W-1", price := 5, quantity := 7,
    min_stock := 2, user_id := 1 }

/-- An item owned by `alice`, low on stock. -/
def gadget : Product :=
  { id := 11, name := "Gadget", sku := "G-1", price := 3, quantity := 1,
    min_stock := 2, user_id := 1 }

/-- An item owned by `bob`, at exactly its threshold. -/
def gizmo : Product :=
  { id := 12, name := "Gizmo", sku := "Z-1", price := 4, quantity := 0,
    min_stock := 0, user_id := 2 }

/-- A demo Item table of exactly 3 rows. -/
def demoProducts : ProductTable := [widget, gadget, gizmo]

/-! ### Helper lemmas about the table model -/

/-- After committing a fetched row, looking its primary key up again finds
exactly the committed row. -/
theorem get_saveRow (getId : α → Int) (db : List α) (obj : α) (i : Int)
    (hid : getId obj = i) (h : (BaseRepository.get getId db i).isSome = true) :
    BaseRepository.get getId (saveRow getId db obj) i = some obj := by
  induction db with
  | nil => simp [BaseRepository.get] at h
  | cons a l ih =>
    by_cases ha : getId a = i
    · simp only [BaseRepository.get, saveRow, List.map_cons]
      rw [if_pos (show (getId a == getId obj) = true by
        rw [beq_iff_eq, hid]; exact ha)]
      exact List.find?_cons_of_pos _
        (show (getId obj == i) = true by rw [beq_iff_eq]; exact hid)
    · have hbeq : ¬ ((getId a == i) = true) := by rw [beq_iff_eq]; exact ha
      have h2 : (BaseRepository.get getId l i).isSome = true := by
        have he : BaseRepository.get getId (a :: l) i
            = BaseRepository.get getId l i := List.find?_cons_of_neg _ hbeq
        rw [he] at h
        exact h
      have hrec := ih h2
      simp only [BaseRepository.get, saveRow, List.map_cons] at hrec ⊢
      rw [if_neg (show ¬ ((getId a == getId obj) = true) by
        rw [beq_iff_eq, hid]; exact ha)]
      exact (@List.find?_cons_of_neg _ (fun row => getId row == i) a _ hbeq).trans hrec

/-- When primary keys are unique, deleting by key makes the key
unfindable. -/
theorem get_eraseP_of_nodup (getId : α → Int) (db : List α) (i : Int)
    (h : (db.map getId).Nodup) :
    BaseRepository.get getId (db.eraseP (fun row => getId row == i)) i
      = none := by
  induction db with
  | nil => rfl
  | cons a l ih =>
    simp only [List.map_cons, List.nodup_cons] at h
    by_cases ha : getId a = i
    · rw [List.eraseP_cons_of_pos (by rw [beq_iff_eq]; exact ha)]
      simp only [BaseRepository.get]
      rw [List.find?_eq_none]
      intro x hx
      rw [beq_iff_eq]
      intro hxi
      exact h.1 (by rw [ha, ← hxi]; exact List.mem_map_of_mem getId hx)
    · rw [List.eraseP_cons_of_neg (by rw [beq_iff_eq]; exact ha)]
      simp only [BaseRepository.get]
      rw [List.find?_cons_of_neg _ (by rw [beq_iff_eq]; exact ha)]
      exact ih h.2

/-- The ascending merge sort on an integer key is pairwise ascending. -/
theorem pairwise_mergeSort_asc (key : α → Int) (l : List α) :
    (l.mergeSort (fun a b => key a ≤ key b)).Pairwise
      (fun a b => key a ≤ key b) := by
  have htrans : ∀ a b c : α, decide (key a ≤ key b) = true →
      decide (key b ≤ key c) = true → decide (key a ≤ key c) = true := by
    intro a b c hab hbc
    exact decide_eq_true (le_trans (of_decide_eq_true hab)
      (of_decide_eq_true hbc))
  have htot : ∀ a b : α,
      (decide (key a ≤ key b) || decide (key b ≤ key a)) = true := by
    intro a b
    rw [Bool.or_eq_true]
    rcases le_total (key a) (key b) with hle | hle
    · exact Or.inl (decide_eq_true hle)
    · exact Or.inr (decide_eq_true hle)
  have h := @List.sorted_mergeSort α (fun a b => decide (key a ≤ key b))
    htrans htot l
  refine h.imp ?_
  intro a b hab
  exact of_decide_eq_true hab

/-- The descending merge sort on an integer key is pairwise descending. -/
theorem pairwise_mergeSort_desc (key : α → Int) (l : List α) :
    (l.mergeSort (fun a b => key b ≤ key a)).Pairwise
      (fun a b => key b ≤ key a) := by
  have htrans : ∀ a b c : α, decide (key b ≤ key a) = true →
      decide (key c ≤ key b) = true → decide (key c ≤ key a) = true := by
    intro a b c hab hbc
    exact decide_eq_true (le_trans (of_decide_eq_true hbc)
      (of_decide_eq_true hab))
  have htot : ∀ a b : α,
      (decide (key b ≤ key a) || decide (key a ≤ key b)) = true := by
    intro a b
    rw [Bool.or_eq_true]
    rcases le_total (key b) (key a) with hle | hle
    · exact Or.inl (decide_eq_true hle)
    · exact Or.inr (decide_eq_true hle)
  have h := @List.sorted_mergeSort α (fun a b => decide (key b ≤ key a))
    htrans htot l
  refine h.imp ?_
  intro a b hab
  exact of_decide_eq_true hab

/-- A paginated slice is a sublist of the query result. -/
theorem drop_take_sublist (l : List α) (skip limit : Nat) :
    ((l.drop skip).take limit).Sublist l :=
  (List.take_sublist limit (l.drop skip)).trans (List.drop_sublist skip l)

/-- C7: `update(existing, partialFields)` is a merge-patch: the returned
entity carries the payload value for every field present in the payload
and the prior value for every field absent from it, and the row identity
and owner (never part of the payload) are untouched. -/
theorem base_update_merge_patch (db : ProductTable) (p : Product)
    (u : ProductUpdate) :
    (BaseRepository.updateProduct db p u).1 = applyProductUpdate p u ∧
    (applyProductUpdate p u).name = u.name.getD p.name ∧
    (applyProductUpdate p u).description = u.description.getD p.description ∧
    (applyProductUpdate p u).sku = u.sku.getD p.sku ∧
    (applyProductUpdate p u).price = u.price.getD p.price ∧
    (applyProductUpdate p u).quantity = u.quantity.getD p.quantity ∧
    (applyProductUpdate p u).image_url = u.image_url.getD p.image_url ∧
    (applyProductUpdate p u).category = u.category.getD p.category ∧
    (applyProductUpdate p u).min_stock = u.min_stock.getD p.min_stock ∧
    (applyProductUpdate p u).id = p.id ∧
    (applyProductUpdate p u).user_id = p.user_id := by
  refine ⟨rfl, ?_⟩
  rcases u with ⟨n, d, s, pr, q, iu, c, ms⟩
  cases n <;> cases d <;> cases s <;> cases pr <;> cases q <;> cases iu
    <;> cases c <;> cases ms
    <;> exact ⟨rfl, rfl, rfl, rfl, rfl, rfl, rfl, rfl, rfl, rfl⟩

/-- C8: the derived low-stock flag holds exactly when
`quantity ≤ min_stock`, and `getLowStock` returns exactly the paginated
rows satisfying that flag. -/
theorem low_stock_flag_and_filter :
    (∀ p : Product, p.is_low_stock = true ↔ p.quantity ≤ p.min_stock) ∧
    (∀ (db : ProductTable) (skip limit : Nat),
      ProductRepository.get_low_stock db skip limit
        = ((db.filter (fun p => p.is_low_stock)).drop skip).take limit) ∧
    (∀ (db : ProductTable) (skip limit : Nat),
      (ProductRepository.get_low_stock db skip limit).all
        (fun p => p.is_low_stock) = true) := by
  refine ⟨?_, ?_, ?_⟩
  · intro p
    simp [Product.is_low_stock]
  · intro db skip limit
    rfl
  · intro db skip limit
    rw [List.all_eq_true]
    intro p hp
    have hmem : p ∈ db.filter (fun q => decide (q.quantity ≤ q.min_stock)) :=
      List.mem_of_mem_drop (List.mem_of_mem_take hp)
    have := (List.mem_filter.mp hmem).2
    simpa [Product.is_low_stock] using this

/-- The clamp in `update_stock` is the max with zero. -/
theorem clamp_eq_max (x : Int) : (if x < 0 then 0 else x) = max 0 x := by
  rw [max_def]
  split_ifs <;> omega

/-- C2: in every filter mode of `GET /products/` the `total` field is the
unfiltered whole-table count and `pages` is the ceiling of that total
divided by the page size; concretely, 3 stored items with `page=1,size=2`
give 2 items and `pages=2`. -/
theorem read_products_total_unfiltered :
    (∀ (db : ProductTable) (page size : Int) (ob : Option String)
        (od : String) (search category : Option String) (low_stock : Bool),
      (read_products db (PaginationParams.make page size ob od) search
          category low_stock).total = BaseRepository.count db ∧
      (read_products db (PaginationParams.make page size ob od) search
          category low_stock).pages
        = BaseRepository.count db ⌈/⌉ (PaginationParams.make page size ob od).size) ∧
    (read_products demoProducts (PaginationParams.make 1 2 none "asc") none
        none false).items.length = 2 ∧
    (read_products demoProducts (PaginationParams.make 1 2 none "asc") none
        none false).pages = 2 := by
  refine ⟨?_, by decide, by decide⟩
  intro db page size ob od search category low_stock
  refine ⟨rfl, ?_⟩
  rw [Nat.ceilDiv_eq_add_pred_div]
  rfl

/-- Evaluation of `update_stock` on a present id: clamp at zero and
persist. -/
theorem update_stock_found (db : ProductTable) (id qc : Int) (p : Product)
    (h : ProductRepository.get db id = some p) :
    ProductRepository.update_stock db id qc
      = (some { p with quantity := max 0 (p.quantity + qc) },
         saveRow Product.id db { p with quantity := max 0 (p.quantity + qc) }) := by
  simp only [ProductRepository.update_stock, h, clamp_eq_max]

/-- C3: `updateStock` sets the quantity of an existing item to
`max 0 (q + delta)` and returns the updated item, returns the not-found
sentinel (leaving the table unchanged) when the id is absent, and a
`delta` followed by `-delta` adjustment restores the original quantity
when the first call did not clamp. -/
theorem update_stock_clamp_and_roundtrip :
    (∀ (db : ProductTable) (id qc : Int),
      ProductRepository.get db id = none →
        ProductRepository.update_stock db id qc = (none, db)) ∧
    (∀ (db : ProductTable) (id qc : Int) (p : Product),
      ProductRepository.get db id = some p →
        (ProductRepository.update_stock db id qc).1
          = some { p with quantity := max 0 (p.quantity + qc) }) ∧
    (∀ (db : ProductTable) (id qc : Int) (p : Product),
      ProductRepository.get db id = some p → 0 ≤ p.quantity →
        0 ≤ p.quantity + qc →
        ∃ p2, (ProductRepository.update_stock
            (ProductRepository.update_stock db id qc).2 id (-qc)).1 = some p2
          ∧ p2.quantity = p.quantity) := by
  refine ⟨?_, ?_, ?_⟩
  · intro db id qc h
    simp [ProductRepository.update_stock, h]
  · intro db id qc p h
    rw [update_stock_found db id qc p h]
  · intro db id qc p h h0 hsum
    have hb : (p.id == id) = true :=
      @List.find?_some Product (fun row => Product.id row == id) p db h
    have hpid : p.id = id := beq_iff_eq.mp hb
    have hmax1 : max 0 (p.quantity + qc) = p.quantity + qc :=
      max_eq_right hsum
    have hget1 : ProductRepository.get
        (ProductRepository.update_stock db id qc).2 id
        = some { p with quantity := p.quantity + qc } := by
      rw [update_stock_found db id qc p h]
      show ProductRepository.get
        (saveRow Product.id db { p with quantity := max 0 (p.quantity + qc) })
        id = _
      rw [hmax1]
      exact get_saveRow Product.id db _ id hpid
        (by show (ProductRepository.get db id).isSome = true; rw [h]; rfl)
    have hstep2 := update_stock_found _ id (-qc) _ hget1
    refine ⟨{ p with quantity := max 0 (p.quantity + qc + -qc) }, ?_, ?_⟩
    · rw [hstep2]
    · show max 0 (p.quantity + qc + -qc) = p.quantity
      rw [max_eq_right (show (0 : Int) ≤ p.quantity + qc + -qc by omega)]
      omega

/-- Witness for C3 at concrete inputs: id 99 is absent from the demo
table; item 10 (quantity 7) adjusted by -3 becomes 4, and the roundtrip
-3 then +3 restores 7. -/
theorem update_stock_clamp_and_roundtrip_witness :
    ProductRepository.update_stock demoProducts 99 5 = (none, demoProducts) ∧
    (ProductRepository.update_stock demoProducts 10 (-3)).1
      = some { widget with quantity := max 0 (widget.quantity + (-3)) } ∧
    (∃ p2, (ProductRepository.update_stock
        (ProductRepository.update_stock demoProducts 10 (-3)).2 10
        (-(-3))).1 = some p2
      ∧ p2.quantity = widget.quantity) := by
  refine ⟨update_stock_clamp_and_roundtrip.1 demoProducts 99 5 (by decide),
    update_stock_clamp_and_roundtrip.2.1 demoProducts 10 (-3) widget (by decide),
    update_stock_clamp_and_roundtrip.2.2 demoProducts 10 (-3) widget
      (by decide) (by decide) (by decide)⟩

/-- C6 counterexample: the code lowercases `order_direction` before the
comparison, so the string "DESC" — which differs from the exact string
"desc" — still yields a descending order: on two rows with quantities 7
and 1 the returned page is not ascending on the ordered field. -/
theorem get_multi_direction_case_cex :
    ("DESC" : String) ≠ "desc" ∧
    productFieldKey "quantity" = some Product.quantity ∧
    BaseRepository.get_multi [widget, gadget] 0 100 (some "quantity") "DESC"
      productFieldKey = [widget, gadget] ∧
    ¬ (widget.quantity ≤ gadget.quantity) := by
  refine ⟨by decide, rfl, ?_, by decide⟩
  have h1 : (lowerString "DESC" == "desc") = true := by decide
  unfold BaseRepository.get_multi
  show ((if (lowerString "DESC" == "desc") = true then
      List.mergeSort [widget, gadget]
        (fun a b => Product.quantity b ≤ Product.quantity a)
    else
      List.mergeSort [widget, gadget]
        (fun a b => Product.quantity a ≤ Product.quantity b)).drop 0).take 100
    = [widget, gadget]
  rw [if_pos h1]
  rw [List.mergeSort_of_sorted (by decide)]
  rfl

/-- C6 as amended: an `order_by` naming a field the entity lacks applies
no ordering and raises no error (the plain page is returned), and the
direction comparison is case-insensitive: any direction whose lowercasing
differs from "desc" sorts ascending on the named field, and exactly the
directions lowercasing to "desc" sort descending. -/
theorem get_multi_ordering (α : Type) :
    (∀ (db : List α) (skip limit : Nat) (dir : String)
        (fk : String → Option (α → Int)),
      BaseRepository.get_multi db skip limit none dir fk
        = (db.drop skip).take limit) ∧
    (∀ (db : List α) (skip limit : Nat) (f dir : String)
        (fk : String → Option (α → Int)),
      fk f = none →
      BaseRepository.get_multi db skip limit (some f) dir fk
        = (db.drop skip).take limit) ∧
    (∀ (db : List α) (skip limit : Nat) (f dir : String)
        (fk : String → Option (α → Int)) (key : α → Int),
      fk f = some key → lowerString dir ≠ "desc" →
      (BaseRepository.get_multi db skip limit (some f) dir fk).Pairwise
        (fun a b => key a ≤ key b)) ∧
    (∀ (db : List α) (skip limit : Nat) (f dir : String)
        (fk : String → Option (α → Int)) (key : α → Int),
      fk f = some key → lowerString dir = "desc" →
      (BaseRepository.get_multi db skip limit (some f) dir fk).Pairwise
        (fun a b => key b ≤ key a)) := by
  refine ⟨?_, ?_, ?_, ?_⟩
  · intro db skip limit dir fk
    rfl
  · intro db skip limit f dir fk h
    simp [BaseRepository.get_multi, h]
  · intro db skip limit f dir fk key h hd
    have hb : (lowerString dir == "desc") = false := by
      rw [beq_eq_false_iff_ne]
      exact hd
    have he : BaseRepository.get_multi db skip limit (some f) dir fk
        = ((db.mergeSort (fun a b => key a ≤ key b)).drop skip).take limit := by
      simp [BaseRepository.get_multi, h, hb]
    rw [he]
    exact List.Pairwise.sublist (drop_take_sublist _ skip limit)
      (pairwise_mergeSort_asc key db)
  · intro db skip limit f dir fk key h hd
    have hb : (lowerString dir == "desc") = true := by
      rw [beq_iff_eq]
      exact hd
    have he : BaseRepository.get_multi db skip limit (some f) dir fk
        = ((db.mergeSort (fun a b => key b ≤ key a)).drop skip).take limit := by
      simp [BaseRepository.get_multi, h, hb]
    rw [he]
    exact List.Pairwise.sublist (drop_take_sublist _ skip limit)
      (pairwise_mergeSort_desc key db)

/-- Witness for the amended C6 at concrete inputs: the unknown field
"flavor" leaves the page unordered, direction "Asc" sorts ascending on
quantity, and direction "DESC" sorts descending. -/
theorem get_multi_ordering_witness :
    BaseRepository.get_multi [widget, gadget] 1 5 (some "flavor") "asc"
      productFieldKey = ([widget, gadget].drop 1).take 5 ∧
    (BaseRepository.get_multi [widget, gadget] 0 5 (some "quantity") "Asc"
      productFieldKey).Pairwise
        (fun a b => Product.quantity a ≤ Product.quantity b) ∧
    (BaseRepository.get_multi [widget, gadget] 0 5 (some "quantity") "DESC"
      productFieldKey).Pairwise
        (fun a b => Product.quantity b ≤ Product.quantity a) := by
  refine ⟨(get_multi_ordering Product).2.1 [widget, gadget] 1 5 "flavor"
      "asc" productFieldKey rfl,
    (get_multi_ordering Product).2.2.1 [widget, gadget] 0 5 "quantity" "Asc"
      productFieldKey Product.quantity rfl (by decide),
    (get_multi_ordering Product).2.2.2 [widget, gadget] 0 5 "quantity"
      "DESC" productFieldKey Product.quantity rfl (by decide)⟩

/-- The composite lookup used by `authenticate`: by username first, then
by email. -/
def userLookup (db : UserTable) (ident : String) : Option User :=
  match UserRepository.get_by_username db ident with
  | some u => some u
  | none => UserRepository.get_by_email db ident

/-- Clearing the active flag of an account, leaving everything else
untouched. -/
def flipInactive (u : User) : User :=
  { u with is_active := false }

/-- `authenticate` branches exactly on the composite lookup. -/
theorem authenticate_eq_lookup (verify : String → String → Bool)
    (db : UserTable) (ident password : String) :
    UserRepository.authenticate verify db ident password
      = (match userLookup db ident with
         | none => none
         | some u => if verify password u.hashed_password then some u
             else none) := rfl

/-- C5: `authenticate` looks up by username first and only falls back to
email when no username matches; it returns the not-authenticated sentinel
exactly when the lookup fails or password verification fails; a returned
account always passed verification; and the result is independent of the
active flag (deactivating every account just deactivates the returned
one). -/
theorem authenticate_lookup_and_result (verify : String → String → Bool)
    (db : UserTable) (ident password : String) :
    (∀ u, UserRepository.get_by_username db ident = some u →
      UserRepository.authenticate verify db ident password
        = (if verify password u.hashed_password then some u else none)) ∧
    (UserRepository.get_by_username db ident = none →
      UserRepository.authenticate verify db ident password
        = (match UserRepository.get_by_email db ident with
           | none => none
           | some u => if verify password u.hashed_password then some u
               else none)) ∧
    (UserRepository.authenticate verify db ident password = none ↔
      userLookup db ident = none ∨
        ∃ u, userLookup db ident = some u
          ∧ verify password u.hashed_password = false) ∧
    (∀ u, UserRepository.authenticate verify db ident password = some u →
      verify password u.hashed_password = true) ∧
    (UserRepository.authenticate verify (db.map flipInactive) ident password
      = (UserRepository.authenticate verify db ident password).map
          flipInactive) := by
  refine ⟨?_, ?_, ?_, ?_, ?_⟩
  · intro u h
    simp only [UserRepository.authenticate, h]
  · intro h
    simp only [UserRepository.authenticate, h]
  · rw [authenticate_eq_lookup]
    rcases hl : userLookup db ident with _ | u
    · simp
    · cases hv : verify password u.hashed_password
      · simp [hv]
      · simp [hv]
  · intro u h
    rw [authenticate_eq_lookup] at h
    rcases hl : userLookup db ident with _ | v
    · rw [hl] at h
      exact absurd h (by simp)
    · rw [hl] at h
      change (if verify password v.hashed_password = true then some v
        else none) = some u at h
      cases hv : verify password v.hashed_password
      · rw [hv] at h
        exact absurd h (by simp)
      · rw [hv] at h
        simp at h
        rw [← h]
        exact hv
  · have hu : UserRepository.get_by_username (db.map flipInactive) ident
        = (UserRepository.get_by_username db ident).map flipInactive := by
      show List.find? _ (List.map flipInactive db) = _
      rw [List.find?_map]
      rfl
    have he : UserRepository.get_by_email (db.map flipInactive) ident
        = (UserRepository.get_by_email db ident).map flipInactive := by
      show List.find? _ (List.map flipInactive db) = _
      rw [List.find?_map]
      rfl
    have hl : userLookup (db.map flipInactive) ident
        = (userLookup db ident).map flipInactive := by
      unfold userLookup
      rw [hu, he]
      cases UserRepository.get_by_username db ident
      · rfl
      · rfl
    rw [authenticate_eq_lookup, authenticate_eq_lookup, hl]
    rcases userLookup db ident with _ | v
    · rfl
    · show (if verify password (flipInactive v).hashed_password = true
          then some (flipInactive v) else none)
        = Option.map flipInactive
            (if verify password v.hashed_password = true then some v
             else none)
      rw [show (flipInactive v).hashed_password = v.hashed_password from rfl]
      cases verify password v.hashed_password <;> rfl

/-- Witness for C5 at concrete inputs: `carol` is inactive yet
authenticates when the opaque verifier accepts her stored hash. -/
theorem authenticate_lookup_and_result_witness :
    UserRepository.authenticate (fun pw h => pw == h) [carol] "carol" "pwc"
      = (if (fun pw h => pw == h) "pwc" carol.hashed_password then some carol
         else none) ∧
    carol.is_active = false ∧
    UserRepository.authenticate (fun pw h => pw == h) [carol] "carol" "pwc"
      = some carol := by
  refine ⟨(authenticate_lookup_and_result (fun pw h => pw == h) [carol]
    "carol" "pwc").1 carol (by decide), rfl, by decide⟩

/-- A registration payload that claims the superuser flag. -/
def suPayload : UserCreate :=
  { email := "eve@example.com", username := "eve", password := "longpass1",
    is_superuser := true }

/-- The account the model persists for `suPayload` under the identity
hash and store-assigned id 7. -/
def eveUser : User :=
  { id := 7, email := "eve@example.com", username := "eve",
    hashed_password := "longpass1", is_superuser := true }

/-- C4: the persisted account's active and superuser flags equal the
registration payload's (which default to true resp. false when absent), so
the open registration endpoint creates a superuser whenever the payload
sets the flag. -/
theorem register_persists_payload_flags :
    (∀ (e un pw : String),
      ({ email := e, username := un, password := pw } : UserCreate).is_active
          = true ∧
      ({ email := e, username := un, password := pw } :
          UserCreate).is_superuser = false) ∧
    (∀ (hash : String → String) (db : UserTable) (nextId : Int)
        (payload : UserCreate) (u : User) (db2 : UserTable),
      register hash db nextId payload = (.ok u, db2) →
      u.is_active = payload.is_active
        ∧ u.is_superuser = payload.is_superuser
        ∧ db2 = db ++ [u]) := by
  refine ⟨fun e un pw => ⟨rfl, rfl⟩, ?_⟩
  intro hash db nextId payload u db2 h
  by_cases h1 : (UserRepository.get_by_username db payload.username).isSome
      = true
  · rw [show register hash db nextId payload = (.error .badRequest, db) by
      simp [register, h1]] at h
    exact absurd h (by simp)
  · by_cases h2 : (UserRepository.get_by_email db payload.email).isSome = true
    · rw [show register hash db nextId payload = (.error .badRequest, db) by
        simp [register, h1, h2]] at h
      exact absurd h (by simp)
    · rw [show register hash db nextId payload
          = (.ok (UserRepository.create hash db nextId payload).1,
             (UserRepository.create hash db nextId payload).2) by
        simp [register, h1, h2]] at h
      rw [Prod.mk.injEq] at h
      obtain ⟨hu, hdb⟩ := h
      rw [Except.ok.injEq] at hu
      rw [← hu, ← hdb]
      exact ⟨rfl, rfl, rfl⟩

/-- Witness for C4: registering `suPayload` on an empty table persists an
active superuser account. -/
theorem register_persists_payload_flags_witness :
    ({ email := "a@b.io", username := "abc", password := "password1" } :
        UserCreate).is_active = true ∧
    ({ email := "a@b.io", username := "abc", password := "password1" } :
        UserCreate).is_superuser = false ∧
    eveUser.is_active = suPayload.is_active ∧
    eveUser.is_superuser = suPayload.is_superuser ∧
    ([eveUser] : UserTable) = [] ++ [eveUser] ∧
    eveUser.is_superuser = true := by
  have hd := register_persists_payload_flags.1 "a@b.io" "abc" "password1"
  have h := register_persists_payload_flags.2 (fun s => s) [] 7 suPayload
    eveUser [eveUser] rfl
  exact ⟨hd.1, hd.2, h.1, h.2.1, h.2.2, rfl⟩

/-- C9: for an active superuser caller, deleting one's own account is
rejected with BadRequest and nothing is deleted; any other id deletes the
account (404 when absent).  Under the primary-key uniqueness invariant
the deleted id is no longer findable. -/
theorem delete_user_spec :
    ∀ (db : UserTable) (current : User) (uid : Int),
      current.is_active = true → current.is_superuser = true →
      ((uid = current.id →
          delete_user db current uid = (.error .badRequest, db)) ∧
       (uid ≠ current.id → UserRepository.get db uid = none →
          delete_user db current uid = (.error .notFound, db)) ∧
       (∀ u, uid ≠ current.id → UserRepository.get db uid = some u →
          delete_user db current uid
              = (.ok (), db.eraseP (fun row => row.id == uid)) ∧
            ((db.map User.id).Nodup →
              UserRepository.get (delete_user db current uid).2 uid
                = none))) := by
  intro db current uid hact hsu
  have hgate : delete_user db current uid
      = (if uid == current.id then (.error .badRequest, db)
         else match UserRepository.get db uid with
           | none => (.error .notFound, db)
           | some _ => (.ok (), (BaseRepository.remove User.id db uid).2)) := by
    simp [delete_user, hact, hsu]
  refine ⟨?_, ?_, ?_⟩
  · intro he
    rw [hgate, if_pos (show (uid == current.id) = true by
      rw [beq_iff_eq]; exact he)]
  · intro hne hnone
    rw [hgate, if_neg (show ¬ ((uid == current.id) = true) by
      rw [beq_iff_eq]; exact hne), hnone]
  · intro u hne hsome
    have hsome2 : BaseRepository.get User.id db uid = some u := hsome
    have h1 : delete_user db current uid
        = (.ok (), db.eraseP (fun row => row.id == uid)) := by
      rw [hgate, if_neg (show ¬ ((uid == current.id) = true) by
        rw [beq_iff_eq]; exact hne), hsome]
      show ((Except.ok (), (BaseRepository.remove User.id db uid).2) :
        Except ApiError Unit × UserTable) = _
      simp only [BaseRepository.remove, hsome2]
    refine ⟨h1, ?_⟩
    intro hnodup
    rw [h1]
    exact get_eraseP_of_nodup User.id db uid hnodup

/-- Witness for C9 at the demo Account table: the admin (id 3) cannot
delete itself, gets 404 on id 99, and successfully deletes account 1,
which then is no longer findable. -/
theorem delete_user_spec_witness :
    delete_user demoUsers adminUser 3 = (.error .badRequest, demoUsers) ∧
    delete_user demoUsers adminUser 99 = (.error .notFound, demoUsers) ∧
    delete_user demoUsers adminUser 1
      = (.ok (), demoUsers.eraseP (fun row => row.id == 1)) ∧
    UserRepository.get (delete_user demoUsers adminUser 1).2 1 = none := by
  have h3 := delete_user_spec demoUsers adminUser 3 (by decide) (by decide)
  have h99 := delete_user_spec demoUsers adminUser 99 (by decide) (by decide)
  have h1 := delete_user_spec demoUsers adminUser 1 (by decide) (by decide)
  refine ⟨h3.1 (by decide), h99.2.1 (by decide) (by decide), ?_, ?_⟩
  · exact (h1.2.2 alice (by decide) (by decide)).1
  · exact (h1.2.2 alice (by decide) (by decide)).2 (by decide)

/-- C1 counterexample: `bob` is an authenticated, active caller who
neither owns item 10 nor is elevated, yet the stock-adjustment endpoint
does not refuse him: it returns the updated item and changes the stored
row, because `update_product_stock` performs no ownership check. -/
theorem stock_endpoint_not_ownership_gated_cex :
    bob.is_active = true ∧ bob.is_superuser = false ∧
    widget.user_id ≠ bob.id ∧
    (update_product_stock [widget] bob 10 3).1
      = .ok { widget with quantity := 10 } ∧
    (update_product_stock [widget] bob 10 3).2
      = [{ widget with quantity := 10 }] ∧
    ({ widget with quantity := 10 } : Product) ≠ widget := by
  refine ⟨rfl, rfl, by decide, by decide, by decide, by decide⟩

/-- C1 as amended: item update and delete by an authenticated, active
caller who is neither the owner nor elevated are refused with Forbidden
and leave the table unchanged; the stock-adjustment endpoint, however,
performs no ownership check: for every active caller it never returns
Forbidden and, on an existing item, updates the quantity to
`max 0 (q + delta)`. -/
theorem item_mutation_access_control :
    (∀ (db : ProductTable) (current : User) (pid : Int)
        (pin : ProductUpdate) (p : Product),
      current.is_active = true → ProductRepository.get db pid = some p →
      p.user_id ≠ current.id → current.is_superuser = false →
      update_product db current pid pin = (.error .forbidden, db)) ∧
    (∀ (db : ProductTable) (current : User) (pid : Int) (p : Product),
      current.is_active = true → ProductRepository.get db pid = some p →
      p.user_id ≠ current.id → current.is_superuser = false →
      delete_product db current pid = (.error .forbidden, db)) ∧
    (∀ (db : ProductTable) (current : User) (pid qc : Int),
      current.is_active = true →
      (update_product_stock db current pid qc).1 ≠ .error .forbidden) ∧
    (∀ (db : ProductTable) (current : User) (pid qc : Int) (p : Product),
      current.is_active = true → ProductRepository.get db pid = some p →
      (update_product_stock db current pid qc).1
        = .ok { p with quantity := max 0 (p.quantity + qc) }) := by
  refine ⟨?_, ?_, ?_, ?_⟩
  · intro db current pid pin p hact hget hne hsu
    have hb : (p.user_id != current.id && !current.is_superuser) = true := by
      rw [Bool.and_eq_true]
      exact ⟨by rw [bne_iff_ne]; exact hne, by rw [hsu]; rfl⟩
    simp [update_product, hact, hget, hb]
  · intro db current pid p hact hget hne hsu
    have hb : (p.user_id != current.id && !current.is_superuser) = true := by
      rw [Bool.and_eq_true]
      exact ⟨by rw [bne_iff_ne]; exact hne, by rw [hsu]; rfl⟩
    simp [delete_product, hact, hget, hb]
  · intro db current pid qc hact
    rcases hg : ProductRepository.get db pid with _ | p
    · simp [update_product_stock, ProductRepository.update_stock, hg, hact]
    · have h4 : (update_product_stock db current pid qc).1
          = .ok { p with quantity := max 0 (p.quantity + qc) } := by
        simp [update_product_stock, update_stock_found db pid qc p hg, hact]
      rw [h4]
      simp
  · intro db current pid qc p hact hget
    simp [update_product_stock, update_stock_found db pid qc p hget, hact]

/-- Witness for the amended C1 at concrete inputs: `bob` against item 10
owned by `alice`. -/
theorem item_mutation_access_control_witness :
    update_product [widget] bob 10 {} = (.error .forbidden, [widget]) ∧
    delete_product [widget] bob 10 = (.error .forbidden, [widget]) ∧
    (update_product_stock [widget] bob 10 3).1 ≠ .error .forbidden ∧
    (update_product_stock [widget] bob 10 3).1
      = .ok { widget with quantity := max 0 (widget.quantity + 3) } := by
  refine ⟨item_mutation_access_control.1 [widget] bob 10 {} widget (by decide)
      (by decide) (by decide) (by decide),
    item_mutation_access_control.2.1 [widget] bob 10 widget (by decide)
      (by decide) (by decide) (by decide),
    item_mutation_access_control.2.2.1 [widget] bob 10 3 (by decide),
    item_mutation_access_control.2.2.2 [widget] bob 10 3 widget (by decide)
      (by decide)⟩

/-- C10: every store-mutating operation of the API surface — register,
item create/update/delete, stock adjustment, account deletion and the
self-service profile update — runs all its validation, uniqueness,
existence, ownership and self-deletion checks before its first mutating
repository call, so an error result always comes with an unchanged
table.  (The remaining operations — login and the read endpoints — issue
no mutating repository call at all.) -/
theorem error_responses_leave_state_unchanged :
    (∀ (hash : String → String) (db : UserTable) (nextId : Int)
        (payload : UserCreate) (e : ApiError),
      (register hash db nextId payload).1 = .error e →
        (register hash db nextId payload).2 = db) ∧
    (∀ (db : ProductTable) (current : User) (nextId : Int)
        (pin : ProductCreate) (e : ApiError),
      (create_product db current nextId pin).1 = .error e →
        (create_product db current nextId pin).2 = db) ∧
    (∀ (db : ProductTable) (current : User) (pid : Int)
        (pin : ProductUpdate) (e : ApiError),
      (update_product db current pid pin).1 = .error e →
        (update_product db current pid pin).2 = db) ∧
    (∀ (db : ProductTable) (current : User) (pid : Int) (e : ApiError),
      (delete_product db current pid).1 = .error e →
        (delete_product db current pid).2 = db) ∧
    (∀ (db : ProductTable) (current : User) (pid qc : Int) (e : ApiError),
      (update_product_stock db current pid qc).1 = .error e →
        (update_product_stock db current pid qc).2 = db) ∧
    (∀ (db : UserTable) (current : User) (uid : Int) (e : ApiError),
      (delete_user db current uid).1 = .error e →
        (delete_user db current uid).2 = db) ∧
    (∀ (hash : String → String) (db : UserTable) (current : User)
        (uin : UserUpdate) (e : ApiError),
      (update_user_me hash db current uin).1 = .error e →
        (update_user_me hash db current uin).2 = db) := by
  refine ⟨?_, ?_, ?_, ?_, ?_, ?_, ?_⟩
  · intro hash db nextId payload e h
    by_cases h1 : (UserRepository.get_by_username db payload.username).isSome
        = true
    · simp [register, h1]
    · by_cases h2 : (UserRepository.get_by_email db payload.email).isSome
          = true
      · simp [register, h1, h2]
      · simp [register, h1, h2] at h
  · intro db current nextId pin e h
    cases h1 : current.is_active
    · simp [create_product, h1]
    · by_cases h2 : (ProductRepository.get_by_sku db pin.sku).isSome = true
      · simp [create_product, h1, h2]
      · simp [create_product, h1, h2] at h
  · intro db current pid pin e h
    cases h1 : current.is_active
    · simp [update_product, h1]
    · rcases hg : ProductRepository.get db pid with _ | p
      · simp [update_product, h1, hg]
      · cases h2 : (p.user_id != current.id && !current.is_superuser)
        · cases h3 : (match pin.sku with
              | none => false
              | some s => s != "" && s != p.sku
                  && (ProductRepository.get_by_sku db s).isSome)
          · simp [update_product, h1, hg, h2, h3] at h
          · simp [update_product, h1, hg, h2, h3]
        · simp [update_product, h1, hg, h2]
  · intro db current pid e h
    cases h1 : current.is_active
    · simp [delete_product, h1]
    · rcases hg : ProductRepository.get db pid with _ | p
      · simp [delete_product, h1, hg]
      · cases h2 : (p.user_id != current.id && !current.is_superuser)
        · simp [delete_product, h1, hg, h2] at h
        · simp [delete_product, h1, hg, h2]
  · intro db current pid qc e h
    cases h1 : current.is_active
    · simp [update_product_stock, h1]
    · rcases hg : ProductRepository.get db pid with _ | p
      · simp [update_product_stock, ProductRepository.update_stock, h1, hg]
      · simp [update_product_stock, update_stock_found db pid qc p hg, h1]
          at h
  · intro db current uid e h
    cases h1 : current.is_active
    · simp [delete_user, h1]
    · cases h2 : current.is_superuser
      · simp [delete_user, h1, h2]
      · cases h3 : (uid == current.id)
        · rcases hg : UserRepository.get db uid with _ | u
          · simp [delete_user, h1, h2, h3, hg]
          · simp [delete_user, h1, h2, h3, hg] at h
        · simp [delete_user, h1, h2, h3]
  · intro hash db current uin e h
    cases h1 : current.is_active
    · simp [update_user_me, h1]
    · cases h2 : (match uin.email with
          | none => false
          | some s => s != "" && s != current.email
              && (UserRepository.get_by_email db s).isSome)
      · cases h3 : (match uin.username with
            | none => false
            | some s => s != "" && s != current.username
                && (UserRepository.get_by_username db s).isSome)
        · simp [update_user_me, h1, h2, h3] at h
        · simp [update_user_me, h1, h2, h3]
      · simp [update_user_me, h1, h2]

/-- A creation payload duplicating an existing demo SKU. -/
def dupSkuPayload : ProductCreate :=
  { name := "Duplicate", sku := "W-1", price := 1, quantity := 1 }

/-- A registration payload duplicating an existing demo username. -/
def dupUserPayload : UserCreate :=
  { email := "fresh@example.com", username := "alice",
    password := "password9" }

/-- A profile update trying to take over an existing demo email. -/
def dupEmailUpdate : UserUpdate :=
  { email := some "bob@example.com" }

/-- Witness for C10: one concrete error response per endpoint, each
leaving its table unchanged. -/
theorem error_responses_leave_state_unchanged_witness :
    (register (fun s => s) demoUsers 9 dupUserPayload).2 = demoUsers ∧
    (create_product demoProducts alice 99 dupSkuPayload).2 = demoProducts ∧
    (update_product [widget] bob 10 {}).2 = [widget] ∧
    (delete_product demoProducts alice 99).2 = demoProducts ∧
    (update_product_stock demoProducts alice 99 5).2 = demoProducts ∧
    (delete_user demoUsers adminUser 3).2 = demoUsers ∧
    (update_user_me (fun s => s) demoUsers alice dupEmailUpdate).2
      = demoUsers := by
  refine ⟨error_responses_leave_state_unchanged.1 (fun s => s) demoUsers 9
      dupUserPayload .badRequest (by decide),
    error_responses_leave_state_unchanged.2.1 demoProducts alice 99
      dupSkuPayload .badRequest (by decide),
    error_responses_leave_state_unchanged.2.2.1 [widget] bob 10 {}
      .forbidden (by decide),
    error_responses_leave_state_unchanged.2.2.2.1 demoProducts alice 99
      .notFound (by decide),
    error_responses_leave_state_unchanged.2.2.2.2.1 demoProducts alice 99 5
      .notFound (by decide),
    error_responses_leave_state_unchanged.2.2.2.2.2.1 demoUsers adminUser 3
      .badRequest (by decide),
    error_responses_leave_state_unchanged.2.2.2.2.2.2 (fun s => s) demoUsers
      alice dupEmailUpdate .badRequest (by decide)⟩
